import Mathlib

/-!
# Verification of the vbt-api compliance/progress aggregator

Shallow embedding of the compliance and progress computation of the
`weight_room` backend (files `routers/dashboard.py` and `routers/workouts.py`).

Database rows are modelled as Lean structures; the remote data store is a
`DB` record of row lists, and each Supabase query (`eq`/`in_`/`gte`/`lte`
filters) is translated to the corresponding `List.filter`.  Python `dict.get`
with a default becomes `Option.getD`; Python string comparison on ISO-8601
timestamps is Lean's lexicographic `String` order; Python sets of ids become
`Finset String`.  Python's `round` (used on `started / eligible * 100`) is
modelled by `pythonRound` over `ℚ`: CPython evaluates the division in binary
floating point, which we idealize as exact rational arithmetic, keeping
Python's round-half-to-even tie rule.

Presentation-only fields (player names, jersey numbers, colors) and the
result ordering clauses (`order by created_at`) are omitted: no claim under
verification depends on them.
-/

/-- A row of the `players` table (fields used by the aggregator). -/
structure Player where
  id : String
  team_id : String
  position_group : Option String := none
deriving DecidableEq, Repr

/-- A row of the `teams` table (fields used by the aggregator). -/
structure Team where
  id : String
  coach_id : String
deriving DecidableEq, Repr

/-- A row of the `workout_assignments` table. -/
structure Assignment where
  id : String
  team_id : String
  template_id : String
  target_type : Option String := none
  target_position_group : Option String := none
  start_at : Option String := none
  due_at : Option String := none
  status : Option String := none
  created_at : String
deriving DecidableEq, Repr

/-- A row of the `workout_assignment_players` junction table. -/
structure JunctionRow where
  assignment_id : String
  player_id : String
deriving DecidableEq, Repr

/-- A row of the `workout_exercise_logs` table (self-reported logs). -/
structure LogRow where
  assignment_id : String
  player_id : String
  exercise_name : String
  sets_completed : Option Nat := none
  weight_lbs : Option Int := none
  reps_per_set : Option Nat := none
deriving DecidableEq, Repr

/-- A row of the `vbt_set_summaries` table (sensor-derived set summaries). -/
structure VbtRow where
  player_id : String
  exercise : String
  created_at : String
deriving DecidableEq, Repr

/-- One set-group of a versioned (v2) template exercise; `sets` mirrors
`sg.get("sets", 0)`. -/
structure SetGroup where
  sets : Option Nat := none
deriving DecidableEq, Repr

/-- One exercise entry of a template's `content` JSONB.  The v2 shape reads
`exerciseName`/`setGroups`/`trackingMode`, the legacy shape reads
`name`/`sets`; a JSON object can carry any of these keys, so all are
optional fields here. -/
structure ExRow where
  exerciseName : Option String := none
  name : Option String := none
  setGroups : List SetGroup := []
  trackingMode : Option String := none
  sets : Option Nat := none
deriving DecidableEq, Repr

/-- A template's `content` JSONB value. -/
structure TemplateContent where
  version : Option Int := none
  exercises : List ExRow := []
deriving DecidableEq, Repr

/-- A row of the `workout_templates` table. -/
structure Template where
  id : String
  name : String
  content : TemplateContent
deriving DecidableEq, Repr

/-- The remote data store, as lists of rows. -/
structure DB where
  teams : List Team := []
  players : List Player := []
  assignments : List Assignment := []
  junction : List JunctionRow := []
  logs : List LogRow := []
  vbt : List VbtRow := []
  templates : List Template := []
deriving DecidableEq, Repr

/-- Derived per-exercise shape produced by `parseExercises`
(`_parse_exercises`). -/
structure ParsedExercise where
  exercise_name : String
  tracking_mode : String
  sets_required : Nat
deriving DecidableEq, Repr

/-- The `ExerciseProgress` response model. -/
structure ExerciseProgress where
  exercise_name : String
  tracking_mode : String
  sets_required : Nat
  sets_completed : Nat
  weight_lbs : Option Int := none
  reps_per_set : Option Nat := none
deriving DecidableEq, Repr

/-- The `ActiveWorkout` response model. -/
structure ActiveWorkout where
  assignment_id : String
  template_name : String
  due_at : Option String := none
  exercises : List ExerciseProgress
deriving DecidableEq, Repr

/-- The `PlayerProgress` response model (presentational fields omitted). -/
structure PlayerProgress where
  player_id : String
  exercises : List ExerciseProgress
deriving DecidableEq, Repr

/-- Error conditions surfaced as `HTTPException`s: 404 and 403. -/
inductive Err where
  | notFound
  | forbidden
deriving DecidableEq, Repr

deriving instance DecidableEq for Except

/-! ## Timestamp comparison

Python compares ISO-8601 timestamp strings with `<=`, which is lexicographic
comparison on code points.  We define that comparison by structural recursion
on the character lists so that it evaluates inside the kernel. -/

/-- Lexicographic `<=` on code-point lists (Python `str.__le__`). -/
def charListLe : List Char → List Char → Bool
  | [], _ => true
  | _ :: _, [] => false
  | a :: as, b :: bs =>
    if a.toNat < b.toNat then true
    else if b.toNat < a.toNat then false
    else charListLe as bs

/-- Python string `<=` on two strings. -/
def strLe (s t : String) : Bool :=
  charListLe s.data t.data

/-! ## `routers/workouts.py` -/

/-- `_VBT_EXERCISES`: exercises the firmware/device supports, used to default
the tracking mode (workouts.py lines 149-153). -/
def vbtExercises : List String :=
  ["Back Squat", "Front Squat", "Bench Press", "Overhead Press",
   "Deadlift", "Trap Bar Deadlift", "Romanian Deadlift",
   "Power Clean", "Hang Clean", "Push Press"]

/-- `_parse_exercises` (workouts.py lines 156-178): extract exercises from a
template's content JSONB, handling v1 and v2. -/
def parseExercises (content : TemplateContent) : List ParsedExercise :=
  content.exercises.map (fun ex =>
    if content.version = some 2 then
      let name := ex.exerciseName.getD ""
      { exercise_name := name
        tracking_mode := ex.trackingMode.getD
          (if vbtExercises.contains name then "vbt" else "self_report")
        sets_required := (ex.setGroups.map (fun sg => sg.sets.getD 0)).sum }
    else
      let name := ex.name.getD ""
      { exercise_name := name
        tracking_mode := if vbtExercises.contains name then "vbt" else "self_report"
        sets_required := ex.sets.getD 0 })

/-- The window condition of the VBT branch of `_compute_exercise_progress`
(workouts.py lines 196-207): `window_start = start_at or created_at`, then
`gte created_at window_start`, and `lte created_at due_at` only when `due_at`
is set — a missing `due_at` leaves the window unbounded above. -/
def progressMatch (start_at due_at : Option String) (created_at ts : String) : Bool :=
  strLe (start_at.getD created_at) ts &&
    (match due_at with
     | some d => strLe ts d
     | none => true)

/-- The self-report lookup of `_compute_exercise_progress` (workouts.py lines
210-218): the first `workout_exercise_logs` row matching assignment, player
and exercise name. -/
def selfReportLookup (db : DB) (assignment_id player_id name : String) :
    Option LogRow :=
  (db.logs.filter (fun r =>
    decide (r.assignment_id = assignment_id) && decide (r.player_id = player_id) &&
      decide (r.exercise_name = name))).head?

/-- The VBT count of `_compute_exercise_progress` (workouts.py lines 196-208):
number of `vbt_set_summaries` rows matching player and exercise inside the
window. -/
def vbtCount (db : DB) (player_id name : String)
    (start_at due_at : Option String) (created_at : String) : Nat :=
  (db.vbt.filter (fun v =>
    decide (v.player_id = player_id) && decide (v.exercise = name) &&
      progressMatch start_at due_at created_at v.created_at)).length

/-- The loop body of `_compute_exercise_progress` (workouts.py lines
187-232): the progress record for one parsed exercise. -/
def exerciseProgressFor (db : DB) (ex : ParsedExercise)
    (player_id assignment_id : String) (start_at due_at : Option String)
    (created_at : String) : ExerciseProgress :=
  if ex.tracking_mode = "vbt" then
    { exercise_name := ex.exercise_name
      tracking_mode := ex.tracking_mode
      sets_required := ex.sets_required
      sets_completed := vbtCount db player_id ex.exercise_name start_at due_at created_at
      weight_lbs := none
      reps_per_set := none }
  else
    match selfReportLookup db assignment_id player_id ex.exercise_name with
    | some row =>
      { exercise_name := ex.exercise_name
        tracking_mode := ex.tracking_mode
        sets_required := ex.sets_required
        sets_completed := row.sets_completed.getD 0
        weight_lbs := row.weight_lbs
        reps_per_set := row.reps_per_set }
    | none =>
      { exercise_name := ex.exercise_name
        tracking_mode := ex.tracking_mode
        sets_required := ex.sets_required
        sets_completed := 0
        weight_lbs := none
        reps_per_set := none }

/-- `_compute_exercise_progress` (workouts.py lines 181-233): for each parsed
exercise, compute sets completed from VBT or self-report data. -/
def computeExerciseProgress (db : DB) (parsed : List ParsedExercise)
    (player_id assignment_id : String) (start_at due_at : Option String)
    (created_at : String) : List ExerciseProgress :=
  parsed.map (fun ex =>
    exerciseProgressFor db ex player_id assignment_id start_at due_at created_at)

/-- The target filter of `get_active_workouts` (workouts.py lines 262-276):
whether the assignment applies to this player.  An unrecognized target type
falls through to the team case (no filtering). -/
def activeTargetFilter (db : DB) (a : Assignment) (player : Player)
    (player_id : String) : Bool :=
  let target := a.target_type.getD "team"
  if target = "position_group" then
    decide (a.target_position_group = player.position_group)
  else if target = "players" then
    !(db.junction.filter (fun r =>
        decide (r.assignment_id = a.id) && decide (r.player_id = player_id))).isEmpty
  else
    true

/-- The template lookup and result construction of `get_active_workouts`
(workouts.py lines 278-301): a missing template row makes the loop `continue`,
producing no entry. -/
def activeWorkoutFor (db : DB) (player_id : String) (a : Assignment) :
    Option ActiveWorkout :=
  match db.templates.find? (fun t => decide (t.id = a.template_id)) with
  | none => none
  | some tmpl =>
    some { assignment_id := a.id
           template_name := tmpl.name
           due_at := a.due_at
           exercises := computeExerciseProgress db (parseExercises tmpl.content)
             player_id a.id a.start_at a.due_at a.created_at }

/-- `get_active_workouts` (workouts.py lines 240-303): the player's active
assignments with per-exercise completion.  The query restricts to the
player's team and `status = "active"`. -/
def getActiveWorkouts (db : DB) (player_id : String) :
    Except Err (List ActiveWorkout) :=
  match db.players.find? (fun p => decide (p.id = player_id)) with
  | none => Except.error Err.notFound
  | some player =>
    let asgs := db.assignments.filter (fun a =>
      decide (a.team_id = player.team_id) && decide (a.status = some "active"))
    Except.ok (asgs.filterMap (fun a =>
      if activeTargetFilter db a player player_id then activeWorkoutFor db player_id a
      else none))

/-- The eligible-player resolution of `get_assignment_progress` (workouts.py
lines 382-399): players of the assignment's team, narrowed by position group
or by join-table membership. -/
def progressEligiblePlayers (db : DB) (assignment : Assignment) : List Player :=
  let target := assignment.target_type.getD "team"
  let base := db.players.filter (fun p => decide (p.team_id = assignment.team_id))
  let base := if target = "position_group" then
      base.filter (fun p => decide (p.position_group = assignment.target_position_group))
    else base
  if target = "players" then
    let eligible_ids := (db.junction.filter (fun r =>
      decide (r.assignment_id = assignment.id))).map (fun r => r.player_id)
    base.filter (fun p => eligible_ids.contains p.id)
  else base

/-- `get_assignment_progress` (workouts.py lines 342-416): the coach's
completion grid for all eligible players of an assignment. -/
def getAssignmentProgress (db : DB) (assignment_id user_id : String) :
    Except Err (List PlayerProgress) :=
  match db.assignments.find? (fun a => decide (a.id = assignment_id)) with
  | none => Except.error Err.notFound
  | some assignment =>
    if (db.teams.filter (fun t =>
        decide (t.id = assignment.team_id) && decide (t.coach_id = user_id))).isEmpty then
      Except.error Err.forbidden
    else
      match db.templates.find? (fun t => decide (t.id = assignment.template_id)) with
      | none => Except.error Err.notFound
      | some tmpl =>
        let parsed := parseExercises tmpl.content
        Except.ok ((progressEligiblePlayers db assignment).map (fun p =>
          { player_id := p.id
            exercises := computeExerciseProgress db parsed p.id assignment_id
              assignment.start_at assignment.due_at assignment.created_at }))

/-! ## `routers/dashboard.py` -/

/-- `pbt.get(team_id, [])` after `_players_by_team` (dashboard.py lines
65-70): the players of one team, in input order. -/
def playersByTeam (players : List Player) (team_id : String) : List Player :=
  players.filter (fun p => decide (p.team_id = team_id))

/-- `_eligible_player_ids` (dashboard.py lines 73-84): the set of player ids
eligible for an assignment.  A target type other than `position_group` or
`players` (including an absent one, defaulted to `team`) yields the full
roster. -/
def eligiblePlayerIds (a : Assignment) (players : List Player)
    (junctionMap : String → Finset String) : Finset String :=
  let team_players := playersByTeam players a.team_id
  let target := a.target_type.getD "team"
  if target = "position_group" then
    ((team_players.filter (fun p =>
      decide (p.position_group = a.target_position_group))).map (fun p => p.id)).toFinset
  else if target = "players" then
    junctionMap a.id
  else
    ((team_players.map (fun p => p.id))).toFinset

/-- `_fetch_junction_map` (dashboard.py lines 87-101): junction rows are
fetched only for assignment ids whose `target_type` is `"players"`; lookup of
any other id returns the empty set (`dict.get(..., set())`). -/
def fetchJunctionMap (db : DB) (assignments : List Assignment) :
    String → Finset String :=
  fun aid =>
    if assignments.any (fun a =>
        decide (a.target_type = some "players") && decide (a.id = aid)) then
      ((db.junction.filter (fun r =>
        decide (r.assignment_id = aid))).map (fun r => r.player_id)).toFinset
    else ∅

/-- The assignment fetch of `_compute_compliance` (dashboard.py lines
116-124): assignments of the given teams whose `due_at` lies in
`[since, until]` (a null `due_at` never satisfies the SQL `gte`). -/
def complianceAssignments (db : DB) (team_ids : List String)
    (since untilTs : String) : List Assignment :=
  db.assignments.filter (fun a =>
    team_ids.contains a.team_id &&
      (match a.due_at with
       | some d => strLe since d && strLe d untilTs
       | none => false))

/-- The per-assignment VBT window check of `_compute_compliance`
(dashboard.py line 174): `a_start <= created_at <= a_due` with
`a_start = start_at or since` and `a_due = due_at or until`, inclusive at
both endpoints. -/
def matchWindow (a : Assignment) (since untilTs ts : String) : Bool :=
  strLe (a.start_at.getD since) ts && strLe ts (a.due_at.getD untilTs)

/-- The self-report fetch of `_compute_compliance` (dashboard.py lines
131-143): `(assignment_id, player_id)` pairs of log rows for the fetched
assignments, with no timestamp condition. -/
def compLogPairs (db : DB) (assignments : List Assignment) :
    List (String × String) :=
  (db.logs.filter (fun r =>
    assignments.any (fun a => decide (a.id = r.assignment_id)))).map
    (fun r => (r.assignment_id, r.player_id))

/-- The VBT fetch of `_compute_compliance` (dashboard.py lines 145-157):
set summaries of the coach's players with `created_at` in the overall
reporting window `[since, until]`. -/
def compVbtRows (db : DB) (players : List Player) (since untilTs : String) :
    List VbtRow :=
  db.vbt.filter (fun v =>
    (players.map (fun p => p.id)).contains v.player_id &&
      strLe since v.created_at && strLe v.created_at untilTs)

/-- The per-assignment `started` set of `_compute_compliance` (dashboard.py
lines 168-176): eligible players with a matching self-report pair, plus
eligible players with a fetched VBT row inside the assignment window. -/
def compStartedSet (db : DB) (assignments : List Assignment)
    (players : List Player) (since untilTs : String) (a : Assignment) :
    Finset String :=
  let eligible := eligiblePlayerIds a players (fetchJunctionMap db assignments)
  let fromLogs := ((compLogPairs db assignments).filter (fun pr =>
    decide (pr.1 = a.id) && decide (pr.2 ∈ eligible))).map (fun pr => pr.2)
  let fromVbt := ((compVbtRows db players since untilTs).filter (fun v =>
    decide (v.player_id ∈ eligible) && matchWindow a since untilTs v.created_at)).map
    (fun v => v.player_id)
  fromLogs.toFinset ∪ fromVbt.toFinset

/-- `team_eligible[tid]` at the end of the accumulation loop (dashboard.py
lines 160-166): total eligible count over this team's fetched assignments. -/
def teamEligibleCount (db : DB) (team_ids : List String) (players : List Player)
    (since untilTs : String) (tid : String) : Nat :=
  (((complianceAssignments db team_ids since untilTs).filter (fun a =>
    decide (a.team_id = tid))).map (fun a =>
      (eligiblePlayerIds a players
        (fetchJunctionMap db (complianceAssignments db team_ids since untilTs))).card)).sum

/-- `team_started[tid]` at the end of the accumulation loop (dashboard.py
lines 161-176): total started count over this team's fetched assignments. -/
def teamStartedCount (db : DB) (team_ids : List String) (players : List Player)
    (since untilTs : String) (tid : String) : Nat :=
  (((complianceAssignments db team_ids since untilTs).filter (fun a =>
    decide (a.team_id = tid))).map (fun a =>
      (compStartedSet db (complianceAssignments db team_ids since untilTs)
        players since untilTs a).card)).sum

/-- Python's builtin `round` on the exact rational value: nearest integer,
ties to even (CPython's float division is idealized as exact). -/
def pythonRound (q : ℚ) : ℤ :=
  if q - ⌊q⌋ < 1/2 then ⌊q⌋
  else if 1/2 < q - ⌊q⌋ then ⌊q⌋ + 1
  else if ⌊q⌋ % 2 = 0 then ⌊q⌋ else ⌊q⌋ + 1

/-- The percentage expression of dashboard.py lines 178-183 and 186:
`round(started / eligible * 100) if eligible else 0`. -/
def compliancePct (s e : Nat) : ℤ :=
  if e = 0 then 0 else pythonRound ((s : ℚ) / (e : ℚ) * 100)

/-- `_compute_compliance` (dashboard.py lines 104-187): per-team compliance
percentages (as an association list in `team_ids` order, one entry per
distinct id, mirroring the Python dict) and the overall percentage. -/
def computeCompliance (db : DB) (team_ids : List String) (players : List Player)
    (since untilTs : String) : List (String × ℤ) × ℤ :=
  if team_ids.isEmpty then ([], 0)
  else if (complianceAssignments db team_ids since untilTs).isEmpty then
    (team_ids.dedup.map (fun t => (t, (0 : ℤ))), 0)
  else
    (team_ids.dedup.map (fun tid =>
      (tid, compliancePct (teamStartedCount db team_ids players since untilTs tid)
        (teamEligibleCount db team_ids players since untilTs tid))),
     compliancePct
       (team_ids.dedup.map (teamStartedCount db team_ids players since untilTs)).sum
       (team_ids.dedup.map (teamEligibleCount db team_ids players since untilTs)).sum)

/-- Transcription of claim C6's definition of "started" (its wording follows
spec §4.5): the player is eligible AND (a self-report row matches the
assignment and player with no timestamp check at all, OR the player has a
sensor set-summary whose timestamp falls within the assignment's effective
window).  Kept separate from the source-derived `compStartedSet` so the two
can be compared. -/
def specStartedC6 (db : DB) (players : List Player)
    (junctionMap : String → Finset String) (since untilTs : String)
    (a : Assignment) (pid : String) : Bool :=
  decide (pid ∈ eligiblePlayerIds a players junctionMap) &&
    (db.logs.any (fun r =>
        decide (r.assignment_id = a.id) && decide (r.player_id = pid)) ||
     db.vbt.any (fun v =>
        decide (v.player_id = pid) && matchWindow a since untilTs v.created_at))

/-! ## Helper lemmas -/

theorem charListLe_refl : ∀ l : List Char, charListLe l l = true := by
  intro l
  induction l with
  | nil => rfl
  | cons x xs ih => simp [charListLe, Nat.lt_irrefl, ih]

theorem charListLe_append : ∀ (l t : List Char), charListLe l (l ++ t) = true := by
  intro l t
  induction l with
  | nil => rfl
  | cons x xs ih => simp [charListLe, Nat.lt_irrefl, ih]

theorem charListLe_append_cons : ∀ (l : List Char) (c : Char) (cs : List Char),
    charListLe (l ++ c :: cs) l = false := by
  intro l c cs
  induction l with
  | nil => rfl
  | cons x xs ih => simp [charListLe, Nat.lt_irrefl, ih]

theorem charListLe_trans : ∀ (a b c : List Char),
    charListLe a b = true → charListLe b c = true → charListLe a c = true := by
  intro a
  induction a with
  | nil => intro b c _ _; rfl
  | cons x xs ih =>
    intro b c h1 h2
    cases b with
    | nil => simp [charListLe] at h1
    | cons y ys =>
      cases c with
      | nil => simp [charListLe] at h2
      | cons z zs =>
        simp only [charListLe] at h1 h2 ⊢
        by_cases hxy : x.toNat < y.toNat
        · by_cases hyz : y.toNat < z.toNat
          · simp [show x.toNat < z.toNat by omega]
          · by_cases hzy : z.toNat < y.toNat
            · simp [hyz, hzy] at h2
            · simp [show x.toNat < z.toNat by omega]
        · by_cases hyx : y.toNat < x.toNat
          · simp [hxy, hyx] at h1
          · simp [hxy, hyx] at h1
            by_cases hyz : y.toNat < z.toNat
            · simp [show x.toNat < z.toNat by omega]
            · by_cases hzy : z.toNat < y.toNat
              · simp [hyz, hzy] at h2
              · simp [hyz, hzy] at h2
                have hxz : ¬x.toNat < z.toNat := by omega
                have hzx : ¬z.toNat < x.toNat := by omega
                simp [hxz, hzx]
                exact ih ys zs h1 h2

theorem charListLe_total : ∀ (a b : List Char),
    charListLe a b = true ∨ charListLe b a = true := by
  intro a
  induction a with
  | nil => intro b; left; rfl
  | cons x xs ih =>
    intro b
    cases b with
    | nil => right; rfl
    | cons y ys =>
      by_cases hxy : x.toNat < y.toNat
      · left; simp [charListLe, hxy]
      · by_cases hyx : y.toNat < x.toNat
        · right; simp [charListLe, hyx]
        · rcases ih ys with h | h
          · left; simp [charListLe, hxy, hyx, h]
          · right; simp [charListLe, hxy, hyx, h]

theorem strLe_trans {s t u : String} (h1 : strLe s t = true) (h2 : strLe t u = true) :
    strLe s u = true :=
  charListLe_trans s.data t.data u.data h1 h2

theorem strLe_total (s t : String) : strLe s t = true ∨ strLe t s = true :=
  charListLe_total s.data t.data

theorem strLe_refl (s : String) : strLe s s = true :=
  charListLe_refl s.data

theorem strLe_append_z (s : String) : strLe s (s ++ "z") = true := by
  show charListLe s.data (s ++ "z").data = true
  rw [String.data_append]
  exact charListLe_append s.data "z".data

theorem strLe_append_z_false (s : String) : strLe (s ++ "z") s = false := by
  show charListLe (s ++ "z").data s.data = false
  rw [String.data_append]
  exact charListLe_append_cons s.data 'z' []

theorem lookup_map_self (l : List String) (f : String → ℤ) (tid : String)
    (h : tid ∈ l) : (l.map (fun t => (t, f t))).lookup tid = some (f tid) := by
  induction l with
  | nil => cases h
  | cons x xs ih =>
    by_cases hx : tid = x
    · subst hx; simp [List.lookup]
    · have hmem : tid ∈ xs := by
        rcases List.mem_cons.mp h with h' | h'
        · exact absurd h' hx
        · exact h'
      have hbeq : (tid == x) = false := beq_eq_false_iff_ne.mpr hx
      simpa [List.lookup, hbeq] using ih hmem

theorem pythonRound_bounds (q : ℚ) :
    q - 1/2 ≤ (pythonRound q : ℚ) ∧ (pythonRound q : ℚ) ≤ q + 1/2 := by
  have h0 : ((⌊q⌋ : ℤ) : ℚ) ≤ q := Int.floor_le q
  have h1 : q < (⌊q⌋ : ℚ) + 1 := Int.lt_floor_add_one q
  unfold pythonRound
  split_ifs with hf1 hf2 hf3 <;> constructor <;> push_cast <;> linarith

theorem pythonRound_mono {q r : ℚ} (h : q ≤ r) : pythonRound q ≤ pythonRound r := by
  by_contra hle
  have hlt : pythonRound r < pythonRound q := lt_of_not_le hle
  have hcast : (pythonRound r : ℚ) + 1 ≤ (pythonRound q : ℚ) := by
    exact_mod_cast Int.add_one_le_iff.mpr hlt
  have hb1 := pythonRound_bounds q
  have hb2 := pythonRound_bounds r
  have hqr : q = r := le_antisymm h (by linarith [hb1.1, hb2.2])
  rw [hqr] at hlt
  exact lt_irrefl _ hlt

/-! ## Claim theorems -/

/-- C3 (amended): the compliance rollup's window check is inclusive at both
endpoints with the caller-supplied `[since, until]` fallbacks; the
per-exercise progress calculator's check falls back to the assignment's
`created_at` for a missing `start_at` and is inclusive at a present `due_at`,
but a missing `due_at` leaves the window unbounded above (no fallback end). -/
theorem c3_window_rule (a : Assignment) (since untilTs : String)
    (sa : Option String) (d ca ts : String) :
    (matchWindow a since untilTs ts = true ↔
      (strLe (a.start_at.getD since) ts = true ∧
        strLe ts (a.due_at.getD untilTs) = true)) ∧
    (progressMatch sa (some d) ca ts = true ↔
      (strLe (sa.getD ca) ts = true ∧ strLe ts d = true)) ∧
    (progressMatch sa none ca ts = true ↔ strLe (sa.getD ca) ts = true) := by
  unfold matchWindow progressMatch
  simp [Bool.and_eq_true]

/-- C3 (counterexample): in the per-exercise progress calculator, an
assignment with no `due_at` admits records arbitrarily far in the future —
no choice of a caller-supplied fallback window end reproduces its
behavior. -/
theorem c3_counterexample :
    ¬∃ wend : String, ∀ ts : String,
      progressMatch none none "2026-01-01T00:00:00Z" ts = true ↔
        (strLe "2026-01-01T00:00:00Z" ts = true ∧ strLe ts wend = true) := by
  rintro ⟨wend, h⟩
  rcases strLe_total "2026-01-01T00:00:00Z" wend with hc | hc
  · have hm : progressMatch none none "2026-01-01T00:00:00Z" (wend ++ "z") = true := by
      show (strLe "2026-01-01T00:00:00Z" (wend ++ "z") && true) = true
      rw [strLe_trans hc (strLe_append_z wend)]
      rfl
    have hts := ((h (wend ++ "z")).mp hm).2
    rw [strLe_append_z_false] at hts
    exact Bool.false_ne_true hts
  · have hm : progressMatch none none "2026-01-01T00:00:00Z"
        ("2026-01-01T00:00:00Z" ++ "z") = true := by
      show (strLe "2026-01-01T00:00:00Z" ("2026-01-01T00:00:00Z" ++ "z") && true) = true
      rw [strLe_append_z]
      rfl
    have hts := ((h ("2026-01-01T00:00:00Z" ++ "z")).mp hm).2
    have hcontra : strLe ("2026-01-01T00:00:00Z" ++ "z") "2026-01-01T00:00:00Z" = true :=
      strLe_trans hts hc
    rw [strLe_append_z_false] at hcontra
    exact Bool.false_ne_true hcontra

/-- C5: the exercise parser normalizes both schema shapes, preserving order
and multiplicity; in the versioned form `sets_required` is the sum of the
set-group `sets` and the tracking mode defaults by allow-list membership
when not stored; in the legacy form `sets_required` is the single `sets`
count and the tracking mode is always derived from the allow-list. -/
theorem c5_parse_rules (content : TemplateContent) :
    (parseExercises content).length = content.exercises.length ∧
    ∀ i (hi : i < content.exercises.length)
      (hi2 : i < (parseExercises content).length),
      ((parseExercises content).get ⟨i, hi2⟩).exercise_name =
        (if content.version = some 2 then (content.exercises.get ⟨i, hi⟩).exerciseName.getD ""
         else (content.exercises.get ⟨i, hi⟩).name.getD "") ∧
      ((parseExercises content).get ⟨i, hi2⟩).sets_required =
        (if content.version = some 2 then
          ((content.exercises.get ⟨i, hi⟩).setGroups.map (fun sg => sg.sets.getD 0)).sum
         else (content.exercises.get ⟨i, hi⟩).sets.getD 0) ∧
      (content.version = some 2 →
        ((parseExercises content).get ⟨i, hi2⟩).tracking_mode =
          (content.exercises.get ⟨i, hi⟩).trackingMode.getD
            (if vbtExercises.contains ((content.exercises.get ⟨i, hi⟩).exerciseName.getD "")
             then "vbt" else "self_report")) ∧
      (content.version ≠ some 2 →
        ((parseExercises content).get ⟨i, hi2⟩).tracking_mode =
          (if vbtExercises.contains ((content.exercises.get ⟨i, hi⟩).name.getD "")
           then "vbt" else "self_report")) := by
  constructor
  · simp [parseExercises]
  · intro i hi hi2
    by_cases hv : content.version = some 2 <;>
      simp [parseExercises, List.get_eq_getElem, List.getElem_map, hv]

/-- C7: an assignment whose (defaulted) target type is neither
`position_group` nor `players` — in particular the `team` case and any
unrecognized value — resolves to the full team roster in every call site:
the dashboard eligibility resolver, the player active-workouts target filter
(the assignment is never dropped), and the coach progress endpoint. -/
theorem c7_team_fallback (a : Assignment) (db : DB) (players : List Player)
    (jm : String → Finset String) (player : Player) (player_id : String)
    (h1 : a.target_type.getD "team" ≠ "position_group")
    (h2 : a.target_type.getD "team" ≠ "players") :
    eligiblePlayerIds a players jm =
      ((playersByTeam players a.team_id).map (fun p => p.id)).toFinset ∧
    activeTargetFilter db a player player_id = true ∧
    progressEligiblePlayers db a =
      db.players.filter (fun p => decide (p.team_id = a.team_id)) := by
  unfold eligiblePlayerIds activeTargetFilter progressEligiblePlayers
  simp [h1, h2]

/-- C7 witness: an unrecognized target type `"everyone"` resolves to the full
roster (of any size, here two players) and does not drop the assignment. -/
theorem c7_witness :
    eligiblePlayerIds
        { id := "A1", team_id := "T1", template_id := "TPL1",
          target_type := some "everyone", created_at := "2026-01-01T00:00:00Z" }
        [{ id := "P1", team_id := "T1" }, { id := "P2", team_id := "T1" }]
        (fun _ => ∅) = {"P1", "P2"} ∧
    activeTargetFilter {} 
        { id := "A1", team_id := "T1", template_id := "TPL1",
          target_type := some "everyone", created_at := "2026-01-01T00:00:00Z" }
        { id := "P1", team_id := "T1" } "P1" = true := by
  have h := c7_team_fallback
    { id := "A1", team_id := "T1", template_id := "TPL1",
      target_type := some "everyone", created_at := "2026-01-01T00:00:00Z" }
    {} [{ id := "P1", team_id := "T1" }, { id := "P2", team_id := "T1" }]
    (fun _ => ∅) { id := "P1", team_id := "T1" } "P1" (by decide) (by decide)
  exact ⟨h.1.trans (by decide), h.2.1⟩

/-- C8: the per-team compliance percentage is monotonic in the started
count: with a fixed positive eligible count, one more started player never
decreases `round(started / eligible * 100)`. -/
theorem c8_monotone (s e : ℕ) (he : 0 < e) (hs : s + 1 ≤ e) :
    compliancePct s e ≤ compliancePct (s + 1) e := by
  have hne : e ≠ 0 := Nat.pos_iff_ne_zero.mp he
  unfold compliancePct
  rw [if_neg hne, if_neg hne]
  apply pythonRound_mono
  have he2 : (0 : ℚ) < (e : ℚ) := by exact_mod_cast he
  have hcast : ((s : ℕ) : ℚ) ≤ (((s + 1 : ℕ)) : ℚ) := by push_cast; linarith
  have hdiv : ((s : ℕ) : ℚ) / (e : ℚ) ≤ (((s + 1 : ℕ)) : ℚ) / (e : ℚ) :=
    (div_le_div_iff_of_pos_right he2).mpr hcast
  exact mul_le_mul_of_nonneg_right hdiv (by norm_num)

/-- C8 witness: at `started = 1, eligible = 2` the percentage rises from 50
toward 100 and never decreases. -/
theorem c8_witness : 0 < 2 ∧ 1 + 1 ≤ 2 ∧ compliancePct 1 2 ≤ compliancePct 2 2 :=
  ⟨by decide, by decide, c8_monotone 1 2 (by decide) (by decide)⟩

/-- Template content used as the C5 witness input: version 2, first exercise
with set-groups of 3 and 2 sets. -/
def c5Content : TemplateContent :=
  { version := some 2
    exercises := [
      { exerciseName := some "Back Squat"
        setGroups := [{ sets := some 3 }, { sets := some 2 }] },
      { exerciseName := some "Curls"
        setGroups := [{ sets := some 4 }] }] }

/-- C5 witness: set-groups `[{sets:3},{sets:2}]` yield `sets_required = 5`,
and the allow-list defaults the tracking mode to `vbt` for "Back Squat". -/
theorem c5_witness :
    ((parseExercises c5Content).get ⟨0, by decide⟩).sets_required = 5 ∧
    ((parseExercises c5Content).get ⟨0, by decide⟩).tracking_mode = "vbt" := by
  have h := (c5_parse_rules c5Content).2 0 (by decide) (by decide)
  exact ⟨h.2.1.trans (by decide), (h.2.2.1 (by decide)).trans (by decide)⟩

/-- C4: the per-exercise progress calculator yields exactly one record per
parsed exercise in parser order; a `vbt` exercise gets the count of matching
sensor set-summaries in the effective window with weight/reps unset; a
`self_report` exercise copies the matching self-report row when present and
degrades to zero progress when absent — the function is total, so no input
raises. -/
theorem c4_exercise_progress (db : DB) (parsed : List ParsedExercise)
    (player_id assignment_id : String) (start_at due_at : Option String)
    (created_at : String) :
    ((computeExerciseProgress db parsed player_id assignment_id start_at due_at
        created_at).length = parsed.length ∧
      ∀ i (hi : i < parsed.length)
        (hi2 : i < (computeExerciseProgress db parsed player_id assignment_id
          start_at due_at created_at).length),
        (computeExerciseProgress db parsed player_id assignment_id start_at due_at
          created_at).get ⟨i, hi2⟩ =
          exerciseProgressFor db (parsed.get ⟨i, hi⟩) player_id assignment_id
            start_at due_at created_at) ∧
    ∀ ex : ParsedExercise,
      (exerciseProgressFor db ex player_id assignment_id start_at due_at
          created_at).exercise_name = ex.exercise_name ∧
      (exerciseProgressFor db ex player_id assignment_id start_at due_at
          created_at).tracking_mode = ex.tracking_mode ∧
      (exerciseProgressFor db ex player_id assignment_id start_at due_at
          created_at).sets_required = ex.sets_required ∧
      (ex.tracking_mode = "vbt" →
        (exerciseProgressFor db ex player_id assignment_id start_at due_at
            created_at).sets_completed =
          vbtCount db player_id ex.exercise_name start_at due_at created_at ∧
        (exerciseProgressFor db ex player_id assignment_id start_at due_at
            created_at).weight_lbs = none ∧
        (exerciseProgressFor db ex player_id assignment_id start_at due_at
            created_at).reps_per_set = none) ∧
      (ex.tracking_mode = "self_report" →
        (∀ row, selfReportLookup db assignment_id player_id ex.exercise_name =
            some row →
          (exerciseProgressFor db ex player_id assignment_id start_at due_at
              created_at).sets_completed = row.sets_completed.getD 0 ∧
          (exerciseProgressFor db ex player_id assignment_id start_at due_at
              created_at).weight_lbs = row.weight_lbs ∧
          (exerciseProgressFor db ex player_id assignment_id start_at due_at
              created_at).reps_per_set = row.reps_per_set) ∧
        (selfReportLookup db assignment_id player_id ex.exercise_name = none →
          (exerciseProgressFor db ex player_id assignment_id start_at due_at
              created_at).sets_completed = 0 ∧
          (exerciseProgressFor db ex player_id assignment_id start_at due_at
              created_at).weight_lbs = none ∧
          (exerciseProgressFor db ex player_id assignment_id start_at due_at
              created_at).reps_per_set = none)) := by
  refine ⟨⟨by simp [computeExerciseProgress], ?_⟩, ?_⟩
  · intro i hi hi2
    simp [computeExerciseProgress, List.get_eq_getElem]
  · intro ex
    unfold exerciseProgressFor
    by_cases hm : ex.tracking_mode = "vbt"
    · simp [hm]
    · cases hlk : selfReportLookup db assignment_id player_id ex.exercise_name with
      | none => simp [hm, hlk]
      | some row => simp [hm, hlk]

/-- Database used as the C4 witness input: one sensor set summary inside the
window, one self-report row, one vbt exercise and one self-report exercise. -/
def c4DB : DB :=
  { vbt := [{ player_id := "P1", exercise := "Back Squat"
              created_at := "2026-01-05T00:00:00Z" }]
    logs := [{ assignment_id := "A1", player_id := "P1"
               exercise_name := "Curls", sets_completed := some 3
               weight_lbs := some 25, reps_per_set := some 10 }] }

/-- C4 witness: on concrete data, the vbt exercise counts its one matching
set summary and the self-report exercise copies its row. -/
theorem c4_witness :
    (computeExerciseProgress c4DB
        [{ exercise_name := "Back Squat", tracking_mode := "vbt", sets_required := 5 },
         { exercise_name := "Curls", tracking_mode := "self_report", sets_required := 4 }]
        "P1" "A1" none (some "2026-01-10T00:00:00Z") "2026-01-01T00:00:00Z").get
      ⟨0, by decide⟩ =
      { exercise_name := "Back Squat", tracking_mode := "vbt", sets_required := 5
        sets_completed := 1, weight_lbs := none, reps_per_set := none } := by
  have h := (c4_exercise_progress c4DB
    [{ exercise_name := "Back Squat", tracking_mode := "vbt", sets_required := 5 },
     { exercise_name := "Curls", tracking_mode := "self_report", sets_required := 4 }]
    "P1" "A1" none (some "2026-01-10T00:00:00Z") "2026-01-01T00:00:00Z").1.2 0
    (by decide) (by decide)
  exact h.trans (by decide)

/-- C10: the player active-workouts endpoint only produces entries backed by
an assignment whose lifecycle status is exactly `"active"`; assignments with
any other status yield no entry. -/
theorem c10_active_only (db : DB) (player_id : String) (l : List ActiveWorkout)
    (h : getActiveWorkouts db player_id = Except.ok l) :
    ∀ w ∈ l, ∃ a, a ∈ db.assignments ∧ a.id = w.assignment_id ∧
      a.status = some "active" := by
  intro w hw
  unfold getActiveWorkouts at h
  cases hfind : db.players.find? (fun p => decide (p.id = player_id)) with
  | none => rw [hfind] at h; cases h
  | some player =>
    rw [hfind] at h
    have hl : (db.assignments.filter (fun a =>
        decide (a.team_id = player.team_id) &&
          decide (a.status = some "active"))).filterMap (fun a =>
        if activeTargetFilter db a player player_id then
          activeWorkoutFor db player_id a
        else none) = l := by
      injection h
    rw [← hl] at hw
    rcases List.mem_filterMap.mp hw with ⟨a, ha, hfa⟩
    rcases List.mem_filter.mp ha with ⟨haA, hcond⟩
    have hcond2 : a.team_id = player.team_id ∧ a.status = some "active" := by
      simpa using hcond
    have hstatus : a.status = some "active" := hcond2.2
    refine ⟨a, haA, ?_, hstatus⟩
    by_cases hfilt : activeTargetFilter db a player player_id
    · rw [if_pos hfilt] at hfa
      unfold activeWorkoutFor at hfa
      cases htm : db.templates.find? (fun t => decide (t.id = a.template_id)) with
      | none => rw [htm] at hfa; cases hfa
      | some tmpl =>
        rw [htm] at hfa
        have := Option.some.inj hfa
        rw [← this]
    · rw [if_neg hfilt] at hfa
      cases hfa

/-- Database used as the C10 witness input: one `active` and one `draft`
assignment on the player's team. -/
def c10DB : DB :=
  { players := [{ id := "P1", team_id := "T1" }]
    assignments := [
      { id := "A1", team_id := "T1", template_id := "TPL1"
        status := some "active", created_at := "2026-01-01T00:00:00Z" },
      { id := "A2", team_id := "T1", template_id := "TPL1"
        status := some "draft", created_at := "2026-01-02T00:00:00Z" }]
    templates := [{ id := "TPL1", name := "Leg Day", content := {} }] }

/-- C10 witness: the single produced entry is backed by the `active`
assignment (the `draft` one yields no entry). -/
theorem c10_witness :
    ∃ a, a ∈ c10DB.assignments ∧ a.id = "A1" ∧ a.status = some "active" :=
  c10_active_only c10DB "P1"
    [{ assignment_id := "A1", template_name := "Leg Day"
       due_at := none, exercises := [] }]
    (by decide)
    { assignment_id := "A1", template_name := "Leg Day"
      due_at := none, exercises := [] }
    (by decide)

/-- C1: looked up in the rollup's result, each requested team's percentage is
`round(started / eligible * 100)` guarded to 0 when the team's eligible
count is 0, and the overall percentage is the same formula over the summed
counts, guarded to 0 when the summed eligible count is 0 — so the
computation never divides by a zero count. -/
theorem c1_compliance_pct (db : DB) (team_ids : List String)
    (players : List Player) (since untilTs : String) (tid : String)
    (h : tid ∈ team_ids) :
    (computeCompliance db team_ids players since untilTs).1.lookup tid =
      some (if teamEligibleCount db team_ids players since untilTs tid = 0 then 0
            else pythonRound
              ((teamStartedCount db team_ids players since untilTs tid : ℚ) /
               (teamEligibleCount db team_ids players since untilTs tid : ℚ) * 100)) ∧
    (computeCompliance db team_ids players since untilTs).2 =
      (if (team_ids.dedup.map (teamEligibleCount db team_ids players since untilTs)).sum = 0
       then 0
       else pythonRound
         (((team_ids.dedup.map (teamStartedCount db team_ids players since untilTs)).sum : ℚ) /
          ((team_ids.dedup.map (teamEligibleCount db team_ids players since untilTs)).sum : ℚ) *
          100)) := by
  have hne : ¬team_ids.isEmpty := by
    cases team_ids with
    | nil => cases h
    | cons x xs => simp
  have hmem : tid ∈ team_ids.dedup := List.mem_dedup.mpr h
  unfold computeCompliance
  rw [if_neg hne]
  by_cases hA : (complianceAssignments db team_ids since untilTs).isEmpty
  · rw [if_pos hA]
    have hAnil : complianceAssignments db team_ids since untilTs = [] :=
      List.isEmpty_iff.mp hA
    have hE0 : ∀ t, teamEligibleCount db team_ids players since untilTs t = 0 := by
      intro t
      unfold teamEligibleCount
      rw [hAnil]
      rfl
    have hsum : (team_ids.dedup.map
        (teamEligibleCount db team_ids players since untilTs)).sum = 0 := by
      apply List.sum_eq_zero
      intro x hx
      rcases List.mem_map.mp hx with ⟨t, _, rfl⟩
      exact hE0 t
    constructor
    · have hlk := lookup_map_self team_ids.dedup (fun _ => (0 : ℤ)) tid hmem
      simp only [Prod.fst]
      rw [hlk, hE0 tid]
      simp
    · simp only [Prod.snd]
      rw [hsum]
      simp
  · rw [if_neg hA]
    constructor
    · have hlk := lookup_map_self team_ids.dedup
        (fun t => compliancePct (teamStartedCount db team_ids players since untilTs t)
          (teamEligibleCount db team_ids players since untilTs t)) tid hmem
      simp only [Prod.fst]
      rw [hlk]
      simp [compliancePct]
    · simp [compliancePct]

/-- Database used as the C1 witness input: two eligible players, one of whom
has a self-report log for the one due assignment. -/
def c1DB : DB :=
  { players := [{ id := "P1", team_id := "T1" }, { id := "P2", team_id := "T1" }]
    assignments := [
      { id := "A1", team_id := "T1", template_id := "TPL1"
        due_at := some "2026-01-15T00:00:00Z"
        created_at := "2026-01-01T00:00:00Z" }]
    logs := [{ assignment_id := "A1", player_id := "P1"
               exercise_name := "Back Squat" }] }

/-- The player list passed alongside `c1DB` (the coach context roster). -/
def c1Players : List Player :=
  [{ id := "P1", team_id := "T1" }, { id := "P2", team_id := "T1" }]

/-- C1 witness: one of two eligible players started, so the team and overall
percentages are both `round(1/2*100) = 50`. -/
theorem c1_witness :
    (computeCompliance c1DB ["T1"] c1Players "2026-01-01T00:00:00Z"
      "2026-01-31T00:00:00Z").1.lookup "T1" = some 50 ∧
    (computeCompliance c1DB ["T1"] c1Players "2026-01-01T00:00:00Z"
      "2026-01-31T00:00:00Z").2 = 50 := by
  obtain ⟨h1, h2⟩ := c1_compliance_pct c1DB ["T1"] c1Players
    "2026-01-01T00:00:00Z" "2026-01-31T00:00:00Z" "T1" (by decide)
  have hE : teamEligibleCount c1DB ["T1"] c1Players "2026-01-01T00:00:00Z"
      "2026-01-31T00:00:00Z" "T1" = 2 := by decide
  have hS : teamStartedCount c1DB ["T1"] c1Players "2026-01-01T00:00:00Z"
      "2026-01-31T00:00:00Z" "T1" = 1 := by decide
  have hsE : (["T1"].dedup.map (teamEligibleCount c1DB ["T1"] c1Players
      "2026-01-01T00:00:00Z" "2026-01-31T00:00:00Z")).sum = 2 := by decide
  have hsS : (["T1"].dedup.map (teamStartedCount c1DB ["T1"] c1Players
      "2026-01-01T00:00:00Z" "2026-01-31T00:00:00Z")).sum = 1 := by decide
  constructor
  · rw [h1, hE, hS]
    norm_num [pythonRound]
  · rw [h2, hsE, hsS]
    norm_num [pythonRound]

/-- C2 (amended): for a `players`-targeted assignment, the dashboard
eligibility resolver returns exactly the join-table membership — independent
of the roster argument — while the coach assignment-progress endpoint
returns the join-table membership intersected with the current team roster
(players who have left the roster are excluded there). -/
theorem c2_players_target (db : DB) (assignments : List Assignment)
    (players : List Player) (a : Assignment)
    (h1 : a.target_type = some "players") (h2 : a ∈ assignments) :
    eligiblePlayerIds a players (fetchJunctionMap db assignments) =
      ((db.junction.filter (fun r => decide (r.assignment_id = a.id))).map
        (fun r => r.player_id)).toFinset ∧
    progressEligiblePlayers db a =
      (db.players.filter (fun p => decide (p.team_id = a.team_id))).filter
        (fun p => ((db.junction.filter (fun r => decide (r.assignment_id = a.id))).map
          (fun r => r.player_id)).contains p.id) := by
  have htarget : a.target_type.getD "team" = "players" := by rw [h1]; rfl
  have hany : assignments.any (fun x =>
      decide (x.target_type = some "players") && decide (x.id = a.id)) = true :=
    List.any_eq_true.mpr ⟨a, h2, by simp [h1]⟩
  constructor
  · unfold eligiblePlayerIds fetchJunctionMap
    simp [htarget, hany]
  · unfold progressEligiblePlayers
    simp [htarget]

/-- Assignment used in the C2 counterexample and witness: targeted at
explicitly selected players. -/
def c2A : Assignment :=
  { id := "A1", team_id := "T1", template_id := "TPL1"
    target_type := some "players", created_at := "2026-01-01T00:00:00Z" }

/-- Database for the C2 counterexample: the join table references player
"P1", but "P1" is no longer on any roster. -/
def c2DB : DB :=
  { junction := [{ assignment_id := "A1", player_id := "P1" }] }

/-- C2 counterexample: with the referenced player gone from the roster, the
dashboard resolver still reports the join membership `{"P1"}`, but the coach
assignment-progress endpoint resolves no eligible players — the two
operations disagree, so eligibility does not equal the join membership in
every operation. -/
theorem c2_counterexample :
    eligiblePlayerIds c2A [] (fetchJunctionMap c2DB [c2A]) = {"P1"} ∧
    progressEligiblePlayers c2DB c2A = [] ∧
    ((progressEligiblePlayers c2DB c2A).map (fun p => p.id)).toFinset ≠
      eligiblePlayerIds c2A [] (fetchJunctionMap c2DB [c2A]) := by decide

/-- Database for the C2 witness: the join table references "P1" and "P2" but
only "P1" remains on the roster. -/
def c2wDB : DB :=
  { players := [{ id := "P1", team_id := "T1" }]
    junction := [{ assignment_id := "A1", player_id := "P1" },
                 { assignment_id := "A1", player_id := "P2" }] }

/-- C2 witness: the dashboard resolver reports the full join membership
`{"P1", "P2"}` while the progress endpoint keeps only the rostered "P1". -/
theorem c2_witness :
    eligiblePlayerIds c2A [{ id := "P1", team_id := "T1" }]
      (fetchJunctionMap c2wDB [c2A]) = {"P1", "P2"} ∧
    progressEligiblePlayers c2wDB c2A = [{ id := "P1", team_id := "T1" }] := by
  have h := c2_players_target c2wDB [c2A] [{ id := "P1", team_id := "T1" }] c2A
    (by decide) (by decide)
  exact ⟨h.1.trans (by decide), h.2.trans (by decide)⟩

/-- C6 (amended): in the compliance rollup, an (assignment, player) pair is
"started" iff the player is eligible AND (a self-report row matches the
assignment and player — with no timestamp check — OR the player is on the
fetched roster and has a sensor set-summary whose timestamp lies both in the
assignment's effective window and in the reporting window `[since, until]`;
the fetch pre-filters sensor rows to the reporting window). -/
theorem c6_started_rule (db : DB) (assignments : List Assignment)
    (players : List Player) (since untilTs : String) (a : Assignment)
    (pid : String) (ha : a ∈ assignments) :
    pid ∈ compStartedSet db assignments players since untilTs a ↔
      pid ∈ eligiblePlayerIds a players (fetchJunctionMap db assignments) ∧
        ((∃ r ∈ db.logs, r.assignment_id = a.id ∧ r.player_id = pid) ∨
         ((players.map (fun p => p.id)).contains pid = true ∧
          ∃ v ∈ db.vbt, v.player_id = pid ∧ strLe since v.created_at = true ∧
            strLe v.created_at untilTs = true ∧
            matchWindow a since untilTs v.created_at = true)) := by
  unfold compStartedSet compLogPairs compVbtRows
  simp only [Finset.mem_union, List.mem_toFinset, List.mem_map, List.mem_filter,
    Bool.and_eq_true, decide_eq_true_eq, List.any_eq_true]
  constructor
  · intro h
    rcases h with hlog | hvbt
    · obtain ⟨pr, ⟨⟨r, ⟨hrmem, -⟩, rfl⟩, hpr1, helig⟩, hpid2⟩ := hlog
      exact ⟨hpid2 ▸ helig, Or.inl ⟨r, hrmem, hpr1, hpid2⟩⟩
    · obtain ⟨v, ⟨⟨hvmem, ⟨hcont, hs1⟩, hs2⟩, hvelig, hwin⟩, hvpid⟩ := hvbt
      exact ⟨hvpid ▸ hvelig, Or.inr ⟨hvpid ▸ hcont, v, hvmem, hvpid, hs1, hs2, hwin⟩⟩
  · rintro ⟨helig, ⟨r, hrmem, hrid, hrpid⟩ | ⟨hcont, v, hvmem, hvpid, hs1, hs2, hwin⟩⟩
    · exact Or.inl ⟨(r.assignment_id, r.player_id),
        ⟨⟨r, ⟨hrmem, ⟨a, ha, hrid.symm⟩⟩, rfl⟩, hrid, by rw [hrpid]; exact helig⟩, hrpid⟩
    · exact Or.inr ⟨v, ⟨⟨hvmem, ⟨by rw [hvpid]; exact hcont, hs1⟩, hs2⟩,
        by rw [hvpid]; exact helig, hwin⟩, hvpid⟩

/-- Player shared by the C6 example databases. -/
def c6P : Player := { id := "P1", team_id := "T1" }

/-- Assignment for the C6 counterexample: its window opened on Jan 1 but the
reporting window only starts Jan 10. -/
def c6A : Assignment :=
  { id := "A1", team_id := "T1", template_id := "TPL1"
    start_at := some "2026-01-01T00:00:00Z"
    due_at := some "2026-01-20T00:00:00Z"
    created_at := "2025-12-30T00:00:00Z" }

/-- Database for the C6 counterexample: the player's only sensor summary
(Jan 5) lies inside the assignment's `[start_at, due_at]` window but before
the reporting window. -/
def c6DB : DB :=
  { players := [c6P]
    assignments := [c6A]
    vbt := [{ player_id := "P1", exercise := "Back Squat"
              created_at := "2026-01-05T00:00:00Z" }] }

/-- C6 counterexample: the assignment is in scope and the claim's own
"started" condition holds for the player (eligible, sensor summary inside
the effective window), yet the code counts the player as not started — the
fetch dropped the summary because it precedes the reporting window. -/
theorem c6_counterexample :
    complianceAssignments c6DB ["T1"] "2026-01-10T00:00:00Z"
      "2026-01-24T00:00:00Z" = [c6A] ∧
    specStartedC6 c6DB [c6P] (fetchJunctionMap c6DB [c6A])
      "2026-01-10T00:00:00Z" "2026-01-24T00:00:00Z" c6A "P1" = true ∧
    "P1" ∉ compStartedSet c6DB [c6A] [c6P] "2026-01-10T00:00:00Z"
      "2026-01-24T00:00:00Z" c6A ∧
    teamStartedCount c6DB ["T1"] [c6P] "2026-01-10T00:00:00Z"
      "2026-01-24T00:00:00Z" "T1" = 0 := by decide

/-- Assignment for the C6 witness database. -/
def c6wA : Assignment :=
  { id := "A1", team_id := "T1", template_id := "TPL1"
    due_at := some "2026-01-15T00:00:00Z"
    created_at := "2026-01-01T00:00:00Z" }

/-- Database for the C6 witness: a self-report row binds the player to the
assignment (no timestamp involved). -/
def c6wDB : DB :=
  { players := [c6P]
    assignments := [c6wA]
    logs := [{ assignment_id := "A1", player_id := "P1"
               exercise_name := "Back Squat" }] }

/-- C6 witness: the windowless self-report path marks the eligible player as
started. -/
theorem c6_witness :
    "P1" ∈ compStartedSet c6wDB [c6wA] [c6P] "2026-01-01T00:00:00Z"
      "2026-01-31T00:00:00Z" c6wA :=
  (c6_started_rule c6wDB [c6wA] [c6P] "2026-01-01T00:00:00Z"
    "2026-01-31T00:00:00Z" c6wA "P1" (by decide)).mpr (by decide)

/-- C9 (amended): the coach assignment-progress endpoint surfaces NotFound
for a missing assignment and for a missing template; the player
active-workouts endpoint never errors on a missing template — it silently
skips such assignments, and every entry it does produce is backed by an
existing template row. -/
theorem c9_not_found (db : DB) (assignment_id user_id player_id : String) :
    (db.assignments.find? (fun a => decide (a.id = assignment_id)) = none →
      getAssignmentProgress db assignment_id user_id = Except.error Err.notFound) ∧
    (∀ a, db.assignments.find? (fun x => decide (x.id = assignment_id)) = some a →
      (db.teams.filter (fun t => decide (t.id = a.team_id) &&
        decide (t.coach_id = user_id))).isEmpty = false →
      db.templates.find? (fun t => decide (t.id = a.template_id)) = none →
      getAssignmentProgress db assignment_id user_id = Except.error Err.notFound) ∧
    (∀ p, db.players.find? (fun q => decide (q.id = player_id)) = some p →
      ∃ l, getActiveWorkouts db player_id = Except.ok l ∧
        ∀ w ∈ l, ∃ a t, a ∈ db.assignments ∧ a.id = w.assignment_id ∧
          db.templates.find? (fun t2 => decide (t2.id = a.template_id)) = some t ∧
          w.template_name = t.name) := by
  refine ⟨?_, ?_, ?_⟩
  · intro hfind
    unfold getAssignmentProgress
    rw [hfind]
  · intro a hfind hteams htmpl
    unfold getAssignmentProgress
    rw [hfind]
    simp [hteams, htmpl]
  · intro p hfind
    unfold getActiveWorkouts
    rw [hfind]
    refine ⟨_, rfl, ?_⟩
    intro w hw
    rcases List.mem_filterMap.mp hw with ⟨a, hamem, hfa⟩
    rcases List.mem_filter.mp hamem with ⟨haA, -⟩
    by_cases hfilt : activeTargetFilter db a p player_id
    · rw [if_pos hfilt] at hfa
      unfold activeWorkoutFor at hfa
      cases htm : db.templates.find? (fun t => decide (t.id = a.template_id)) with
      | none => rw [htm] at hfa; cases hfa
      | some tmpl =>
        rw [htm] at hfa
        have hw2 := Option.some.inj hfa
        refine ⟨a, tmpl, haA, ?_, htm, ?_⟩
        · rw [← hw2]
        · rw [← hw2]
    · rw [if_neg hfilt] at hfa
      cases hfa

/-- Database for the C9 counterexample: an active team-targeted assignment
whose template row does not exist. -/
def c9DB : DB :=
  { players := [{ id := "P1", team_id := "T1" }]
    assignments := [{ id := "A1", team_id := "T1", template_id := "TPL1"
                      status := some "active"
                      created_at := "2026-01-01T00:00:00Z" }] }

/-- C9 counterexample: the assignment is processed (the target filter passes)
and its template row is absent, yet the active-workouts endpoint returns an
empty success — no NotFound condition is surfaced; the assignment is
silently skipped. -/
theorem c9_counterexample :
    c9DB.templates.find? (fun t => decide (t.id = "TPL1")) = none ∧
    activeTargetFilter c9DB
      { id := "A1", team_id := "T1", template_id := "TPL1"
        status := some "active", created_at := "2026-01-01T00:00:00Z" }
      { id := "P1", team_id := "T1" } "P1" = true ∧
    getActiveWorkouts c9DB "P1" = Except.ok [] := by decide

/-- Database for the C9 witness: the coach owns team T1; its one assignment
references a template id with no template row. -/
def c9wDB : DB :=
  { teams := [{ id := "T1", coach_id := "U1" }]
    players := [{ id := "P1", team_id := "T1" }]
    assignments := [{ id := "A1", team_id := "T1", template_id := "TPLX"
                      status := some "active"
                      created_at := "2026-01-01T00:00:00Z" }] }

/-- C9 witness: a missing assignment id and a missing template both produce
NotFound on the coach assignment-progress endpoint. -/
theorem c9_witness :
    getAssignmentProgress c9wDB "A2" "U1" = Except.error Err.notFound ∧
    getAssignmentProgress c9wDB "A1" "U1" = Except.error Err.notFound :=
  ⟨(c9_not_found c9wDB "A2" "U1" "P1").1 (by decide),
   (c9_not_found c9wDB "A1" "U1" "P1").2.1
     { id := "A1", team_id := "T1", template_id := "TPLX"
       status := some "active", created_at := "2026-01-01T00:00:00Z" }
     (by decide) (by decide) (by decide)⟩
